import Mathlib

/-!
Verification development for the blue-tracker ingestion and relay engine.

The definitions below are a shallow embedding of the repository's Python
sources (src/bot/crawler.py, src/bot/main.py, src/bot/repost.py,
src/bot/db.py).  Python strings are modelled as `List Char` (a Python `str`
is a sequence of code points and slicing corresponds to `List.take`); the
SQLite tables are modelled as lists of row structures, with the
INSERT OR REPLACE / INSERT OR IGNORE / SELECT-then-INSERT patterns of the
source spelled out on those lists.  Remote I/O (the Discord history fetch,
webhook sends, channel creation) is modelled by passing the outcome of each
remote call as an explicit parameter, and the remote calls actually issued
are recorded in explicit event traces.
-/

set_option maxRecDepth 100000

namespace BlueTracker

/-- A resolved reply parent as used by repost.py build_snippet: the referenced
message's author display name and content. -/
structure ParentMsg where
  displayName : List Char
  content : List Char
  deriving DecidableEq, Repr

/-- A Discord message as seen by the crawler and the snippet builder.
`roleIds` are the author's role ids (for should_repost), `hasReference`
models `msg.reference`, and `resolvedParent` is the outcome of resolving the
referenced message (`none` when resolution fails or finds nothing). -/
structure Message where
  id : Nat
  channelId : Nat
  authorId : Nat
  authorName : List Char
  roleIds : List Nat
  createdAt : Int
  content : List Char
  hasReference : Bool
  resolvedParent : Option ParentMsg
  deriving DecidableEq, Repr

/-- Placeholder text repost.py substitutes for empty message content. -/
def embedOnly : List Char := "(embed/attachment only)".toList

/-- The single ellipsis character appended by repost.py after truncation. -/
def ellipsisChar : List Char := "…".toList

/-- Opening of the reply-quote line of build_snippet, before the parent
author's display name. -/
def quoteHead : List Char := "> **↪️   ".toList

/-- Separator of the reply-quote line between the author name and the quoted
parent text. -/
def quoteSep : List Char := ":** ".toList

/-- Blank line terminating the reply-quote, before the snippet proper. -/
def quoteTail : List Char := "\n\n".toList

/-- Embedding of repost.py build_snippet (lines 117-144): the content (or the
embed-only placeholder) is truncated to 197 characters plus an ellipsis when
longer than 200; if the message is a reply whose parent resolves, a quote
line holding the parent author's name and the parent's content (truncated to
97 characters plus an ellipsis when longer than 100) is prepended. -/
def build_snippet (m : Message) : List Char :=
  let s0 := if m.content.isEmpty then embedOnly else m.content
  let s1 := if 200 < s0.length then s0.take 197 ++ ellipsisChar else s0
  if !m.hasReference then s1
  else
    match m.resolvedParent with
    | none => s1
    | some p =>
      let p0 := if p.content.isEmpty then embedOnly else p.content
      let p1 := if 100 < p0.length then p0.take 97 ++ ellipsisChar else p0
      quoteHead ++ p.displayName ++ quoteSep ++ p1 ++ quoteTail ++ s1

/-- When no reply-quote is prepended (no reference, or the parent did not
resolve) build_snippet returns just the truncated content. -/
theorem build_snippet_noquote (m : Message)
    (h : m.hasReference = false ∨ m.resolvedParent = none) :
    build_snippet m =
      (if 200 < (if m.content.isEmpty then embedOnly else m.content).length
       then (if m.content.isEmpty then embedOnly else m.content).take 197 ++ ellipsisChar
       else (if m.content.isEmpty then embedOnly else m.content)) := by
  rcases h with h | h
  · simp [build_snippet, h]
  · cases hb : m.hasReference <;> simp [build_snippet, h, hb]

/-- A concrete message for claim C9: 250 characters of content and a reply
whose parent has 150 characters of content. -/
def exMsgC9 : Message :=
  { id := 1, channelId := 2, authorId := 3, authorName := "Dev".toList,
    roleIds := [], createdAt := 0, content := List.replicate 250 'a',
    hasReference := true,
    resolvedParent := some { displayName := "Bob".toList,
                             content := List.replicate 150 'b' } }

/-- C9 counterexample: the claim says the snippet persisted in the Post row is
at most 200 characters; on a 250-character message replying to a
150-character parent, build_snippet returns 312 characters, because the
reply-quote line is prepended after the 200-character truncation. -/
theorem C9_counterexample : 200 < (build_snippet exMsgC9).length := by decide

/-- C9 (amended): the content portion of the snippet is at most 200
characters - over-long content is cut to 197 characters and terminated by an
ellipsis - so whenever no reply-quote line is prepended (no reference, or an
unresolvable parent) the whole snippet is at most 200 characters, and
over-long content yields exactly 198 characters ending in the ellipsis; with
a reply-quote line the persisted snippet can exceed 200 characters (see the
counterexample). -/
theorem C9_snippet_truncation (m : Message)
    (h : m.hasReference = false ∨ m.resolvedParent = none) :
    (build_snippet m).length ≤ 200 ∧
      (200 < m.content.length →
        (build_snippet m).length = 198 ∧
          (build_snippet m).getLast? = some '…') := by
  rw [build_snippet_noquote m h]
  by_cases he : m.content.isEmpty
  · have hlen : (if m.content.isEmpty then embedOnly else m.content) = embedOnly := by
      simp [he]
    rw [hlen]
    constructor
    · simp [embedOnly]
    · intro hlong
      rw [List.isEmpty_iff] at he
      simp [he] at hlong
  · have hlen : (if m.content.isEmpty then embedOnly else m.content) = m.content := by
      simp [he]
    rw [hlen]
    by_cases hl : 200 < m.content.length
    · rw [if_pos hl]
      have h197 : (m.content.take 197).length = 197 := by
        rw [List.length_take]
        omega
      constructor
      · simp [ellipsisChar, h197]
      · intro _
        refine ⟨by simp [ellipsisChar, h197], ?_⟩
        exact List.getLast?_concat (m.content.take 197)
    · rw [if_neg hl]
      exact ⟨by omega, fun hlong => absurd hlong hl⟩

/-- A concrete 250-character message with no reply reference. -/
def exMsgC9noRef : Message :=
  { id := 4, channelId := 2, authorId := 3, authorName := "Dev".toList,
    roleIds := [], createdAt := 0, content := List.replicate 250 'a',
    hasReference := false, resolvedParent := none }

/-- Witness for C9_snippet_truncation at a concrete 250-character message
with no reply reference. -/
theorem C9_snippet_truncation_witness :
    ((exMsgC9noRef.hasReference = false ∨ exMsgC9noRef.resolvedParent = none) ∧
      (build_snippet exMsgC9noRef).length ≤ 200 ∧
        (200 < exMsgC9noRef.content.length →
          (build_snippet exMsgC9noRef).length = 198 ∧
            (build_snippet exMsgC9noRef).getLast? = some '…')) :=
  ⟨Or.inl (by decide), C9_snippet_truncation exMsgC9noRef (Or.inl (by decide))⟩

/-- A row of the posts table (db.py CREATE_SQL): `id INTEGER PRIMARY KEY`,
chan_id, author_id, ts, content, replayed. -/
structure PostRow where
  id : Nat
  chanId : Nat
  authorId : Nat
  ts : Int
  content : List Char
  replayed : Nat
  deriving DecidableEq, Repr

/-- The `SELECT id FROM posts WHERE id = ?` existence check. -/
def post_exists (posts : List PostRow) (i : Nat) : Bool :=
  posts.any (fun r => r.id == i)

/-- Number of rows of the posts table carrying a given id. -/
def countId (posts : List PostRow) (i : Nat) : Nat :=
  (posts.filter (fun r => r.id == i)).length

/-- Embedding of the posts-table effect of crawler.py crawl_one lines 115-132
for one tracked in-cutoff message: a SELECT-based existence check on the id,
then a plain `INSERT INTO posts` of (id, chan_id, author_id, ts, snippet, 0)
when the id was absent (see crawl_page below for the full loop). -/
def crawl_insert_post (posts : List PostRow) (m : Message) : List PostRow :=
  if post_exists posts m.id then posts
  else posts ++ [⟨m.id, m.channelId, m.authorId, m.createdAt, build_snippet m, 0⟩]

/-- Embedding of main.py db_add_post (lines 15-20): an
`INSERT OR IGNORE INTO posts`, which on the `id INTEGER PRIMARY KEY` table
inserts only when no row with the same id exists; replayed is 1 when
already_replayed is set. -/
def db_add_post (posts : List PostRow) (m : Message) (snippet : List Char)
    (alreadyReplayed : Bool) : List PostRow :=
  if post_exists posts m.id then posts
  else posts ++ [⟨m.id, m.channelId, m.authorId, m.createdAt, snippet,
                  if alreadyReplayed then 1 else 0⟩]

/-- A negative existence check is the same as a zero row count. -/
theorem post_exists_false_iff (posts : List PostRow) (i : Nat) :
    post_exists posts i = false ↔ countId posts i = 0 := by
  simp [post_exists, countId, List.length_eq_zero, List.filter_eq_nil_iff,
    List.any_eq_false]

/-- A positive existence check means at least one row with that id. -/
theorem one_le_countId_of_post_exists (posts : List PostRow) (i : Nat)
    (h : post_exists posts i = true) : 1 ≤ countId posts i := by
  by_contra hlt
  have h0 : countId posts i = 0 := by omega
  rw [← post_exists_false_iff] at h0
  rw [h] at h0
  exact absurd h0 (by simp)

/-- Appending one row with the sought id adds one to the count. -/
theorem countId_append_single (posts : List PostRow) (r : PostRow) (i : Nat)
    (h : r.id = i) : countId (posts ++ [r]) i = countId posts i + 1 := by
  simp [countId, List.filter_append, h]

/-- The crawl-path insert leaves exactly one row with the message's id
whenever at most one was there before. -/
theorem countId_crawl_insert (posts : List PostRow) (m : Message)
    (h : countId posts m.id ≤ 1) :
    countId (crawl_insert_post posts m) m.id = 1 := by
  unfold crawl_insert_post
  cases he : post_exists posts m.id
  · rw [if_neg (by simp)]
    rw [post_exists_false_iff] at he
    rw [countId_append_single posts _ m.id rfl, he]
  · rw [if_pos rfl]
    have := one_le_countId_of_post_exists posts m.id he
    omega

/-- The live-path insert leaves exactly one row with the message's id
whenever at most one was there before. -/
theorem countId_db_add_post (posts : List PostRow) (m : Message)
    (snippet : List Char) (b : Bool) (h : countId posts m.id ≤ 1) :
    countId (db_add_post posts m snippet b) m.id = 1 := by
  unfold db_add_post
  cases he : post_exists posts m.id
  · rw [if_neg (by simp)]
    rw [post_exists_false_iff] at he
    rw [countId_append_single posts _ m.id rfl, he]
  · rw [if_pos rfl]
    have := one_le_countId_of_post_exists posts m.id he
    omega

/-- C2: inserting a post with the same id twice - backfill path twice, live
path twice, or one of each in either order - leaves exactly one row with
that id in the posts table, provided the table satisfied the primary-key
uniqueness invariant (at most one row per id) beforehand. -/
theorem C2_same_id_twice_single_row (posts : List PostRow) (m : Message)
    (snip snip' : List Char) (b b' : Bool) (h : countId posts m.id ≤ 1) :
    countId (crawl_insert_post (crawl_insert_post posts m) m) m.id = 1 ∧
    countId (db_add_post (db_add_post posts m snip b) m snip' b') m.id = 1 ∧
    countId (db_add_post (crawl_insert_post posts m) m snip b) m.id = 1 ∧
    countId (crawl_insert_post (db_add_post posts m snip b) m) m.id = 1 := by
  have h1 := countId_crawl_insert posts m h
  have h2 := countId_db_add_post posts m snip b h
  exact ⟨countId_crawl_insert _ m (by omega),
         countId_db_add_post _ m snip' b' (by omega),
         countId_db_add_post _ m snip b (by omega),
         countId_crawl_insert _ m (by omega)⟩

/-- A concrete message for the C2 witness. -/
def exMsgC2 : Message :=
  { id := 11, channelId := 2, authorId := 3, authorName := "Dev".toList,
    roleIds := [], createdAt := 5, content := "hello".toList,
    hasReference := false, resolvedParent := none }

/-- Witness for C2_same_id_twice_single_row on an initially empty posts
table. -/
theorem C2_same_id_twice_single_row_witness :
    (countId [] exMsgC2.id ≤ 1 ∧
      countId (crawl_insert_post (crawl_insert_post [] exMsgC2) exMsgC2) exMsgC2.id = 1 ∧
      countId (db_add_post (db_add_post [] exMsgC2 [] true) exMsgC2 [] false) exMsgC2.id = 1 ∧
      countId (db_add_post (crawl_insert_post [] exMsgC2) exMsgC2 [] true) exMsgC2.id = 1 ∧
      countId (crawl_insert_post (db_add_post [] exMsgC2 [] true) exMsgC2) exMsgC2.id = 1) :=
  ⟨by decide, C2_same_id_twice_single_row [] exMsgC2 [] [] true false (by decide)⟩

/-- A row of the crawl_progress table: chan_id PRIMARY KEY, last_seen_id,
updated_at. -/
structure ProgressRow where
  chanId : Nat
  lastSeenId : Nat
  updatedAt : Nat
  deriving DecidableEq, Repr

/-- A row of the channels table: chan_id PRIMARY KEY, name, accessible,
parent_id. -/
structure ChannelRow where
  chanId : Nat
  name : List Char
  accessible : Nat
  parentId : Option Nat
  deriving DecidableEq, Repr

/-- A row of the authors table: author_id PRIMARY KEY, author_name. -/
structure AuthorRow where
  authorId : Nat
  authorName : Option (List Char)
  deriving DecidableEq, Repr

/-- A Discord channel or thread handle as crawl_one sees it; canReadHistory
models `ch.permissions_for(me).read_message_history`. -/
structure Channel where
  id : Nat
  name : List Char
  isThread : Bool
  parentId : Option Nat
  canReadHistory : Bool
  deriving DecidableEq, Repr

/-- The state shared by the crawler: the four relevant tables, the two
module-level caches of crawler.py (inaccessible_channels, finished_channels)
and the blue_ids set of main.py. -/
structure CrawlState where
  posts : List PostRow
  authors : List AuthorRow
  progress : List ProgressRow
  channels : List ChannelRow
  inaccessible : List Nat
  finished : List Nat
  blueIds : List Nat
  deriving DecidableEq, Repr

/-- Embedding of main.py db_add_author (lines 22-31): INSERT OR IGNORE of
(id, name), then an UPDATE of author_name for that id where it is NULL. -/
def db_add_author (authors : List AuthorRow) (uid : Nat) (name : List Char) :
    List AuthorRow :=
  let a1 := if authors.any (fun a => a.authorId == uid) then authors
            else authors ++ [⟨uid, some name⟩]
  a1.map (fun a => if a.authorId == uid && a.authorName.isNone
                   then ⟨a.authorId, some name⟩ else a)

/-- Embedding of crawler.py save_channel (lines 40-59): INSERT OR REPLACE
into channels keyed on chan_id. -/
def save_channel (channels : List ChannelRow) (chanId : Nat) (name : List Char)
    (accessible : Bool) (parentId : Option Nat) : List ChannelRow :=
  ⟨chanId, name, if accessible then 1 else 0, parentId⟩ ::
    channels.filter (fun r => !(r.chanId == chanId))

/-- The `SELECT MAX(id) FROM posts WHERE chan_id = ?` fallback of
get_last_seen_id; 0 plays the role of SQL NULL on an empty selection. -/
def maxPostId (posts : List PostRow) (c : Nat) : Nat :=
  ((posts.filter (fun r => r.chanId == c)).map (fun r => r.id)).foldl Nat.max 0

/-- Embedding of crawler.py get_last_seen_id (lines 20-29): the progress
table is consulted first and its value returned when truthy (non-zero);
otherwise the maximal post id of the channel is returned when truthy, else
None. -/
def get_last_seen_id (progress : List ProgressRow) (posts : List PostRow)
    (c : Nat) : Option Nat :=
  match progress.find? (fun r => r.chanId == c) with
  | some r =>
      if r.lastSeenId ≠ 0 then some r.lastSeenId
      else if maxPostId posts c ≠ 0 then some (maxPostId posts c) else none
  | none => if maxPostId posts c ≠ 0 then some (maxPostId posts c) else none

/-- Embedding of crawler.py update_last_seen_id (lines 31-38): INSERT OR
REPLACE into crawl_progress keyed on chan_id. -/
def update_last_seen_id (progress : List ProgressRow) (c lastId now : Nat) :
    List ProgressRow :=
  ⟨c, lastId, now⟩ :: progress.filter (fun r => !(r.chanId == c))

/-- Embedding of repost.py should_repost (lines 8-15): ignored channels are
never reposted; otherwise a known blue author, or any author role in the
TRACKED set, qualifies. -/
def should_repost (ignored tracked blueIds : List Nat) (m : Message) : Bool :=
  if ignored.contains m.channelId then false
  else if blueIds.contains m.authorId then true
  else m.roleIds.any (fun r => tracked.contains r)

/-- Outcome of the `ch.history(...)` page fetch of crawl_one: a page of
messages (returned newest first, possibly empty), a timeout, a Forbidden
error, or another HTTPException with a status code. -/
inductive FetchResult where
  | ok (msgs : List Message)
  | timeout
  | forbidden
  | httpError (status : Nat)
  deriving DecidableEq, Repr

/-- Remote history calls issued by the crawler, with the `before=` anchor
that was passed. -/
inductive CrawlEvent where
  | fetchHistory (chanId : Nat) (before : Option Nat)
  deriving DecidableEq, Repr

/-- Embedding of the per-message loop of crawl_one (crawler.py lines
109-137), applied to the page already reversed to oldest-first order: a
message older than the cutoff marks the channel finished and breaks; an id
already present is skipped; otherwise a message passing should_repost adds
its author to blue_ids, upserts the author row and inserts the Post row. -/
def crawl_page (ignored tracked : List Nat) (chanId : Nat) (cutoff : Int) :
    List Message → CrawlState → CrawlState
  | [], st => st
  | m :: rest, st =>
    if m.createdAt < cutoff then { st with finished := chanId :: st.finished }
    else if post_exists st.posts m.id then
      crawl_page ignored tracked chanId cutoff rest st
    else if should_repost ignored tracked st.blueIds m then
      crawl_page ignored tracked chanId cutoff rest
        { st with
            blueIds := m.authorId :: st.blueIds,
            authors := db_add_author st.authors m.authorId m.authorName,
            posts := st.posts ++
              [⟨m.id, m.channelId, m.authorId, m.createdAt, build_snippet m, 0⟩] }
    else crawl_page ignored tracked chanId cutoff rest st

/-- Embedding of crawler.py crawl_one (lines 62-168).  The channel row is
saved, then the ignored / inaccessible / finished caches and the history
permission are checked; if a fetch is issued (recorded as a fetchHistory
event, anchored before the stored cursor) its outcome drives the rest:
timeouts and non-403 errors leave the state alone, Forbidden and HTTP 403
cache the channel as inaccessible, an empty page marks it finished, and a
non-empty page is processed oldest-first, after which the progress row is
rewritten to the lowest id of the page when that differs from the stored
cursor. -/
def crawl_one (ignored tracked : List Nat) (ch : Channel) (cutoff : Int)
    (now : Nat) (fetch : FetchResult) (st : CrawlState) :
    CrawlState × List CrawlEvent :=
  let st0 := { st with
    channels := save_channel st.channels ch.id ch.name true
      (if ch.isThread then ch.parentId else none) }
  if ignored.contains ch.id then (st0, [])
  else if st0.inaccessible.contains ch.id then (st0, [])
  else if st0.finished.contains ch.id then (st0, [])
  else if !ch.canReadHistory then
    ({ st0 with inaccessible := ch.id :: st0.inaccessible,
                channels := save_channel st0.channels ch.id ch.name false none },
     [])
  else
    let earliestSeen := get_last_seen_id st0.progress st0.posts ch.id
    let evs := [CrawlEvent.fetchHistory ch.id earliestSeen]
    match fetch with
    | FetchResult.timeout => (st0, evs)
    | FetchResult.forbidden =>
        ({ st0 with inaccessible := ch.id :: st0.inaccessible,
                    channels := save_channel st0.channels ch.id ch.name false none },
         evs)
    | FetchResult.httpError status =>
        if status == 403 then
          ({ st0 with inaccessible := ch.id :: st0.inaccessible,
                      channels := save_channel st0.channels ch.id ch.name false none },
           evs)
        else (st0, evs)
    | FetchResult.ok msgs =>
        if msgs.isEmpty then ({ st0 with finished := ch.id :: st0.finished }, evs)
        else
          let newEarliest := ((msgs.reverse).head?.map Message.id).getD 0
          let st1 := crawl_page ignored tracked ch.id cutoff msgs.reverse st0
          if newEarliest ≠ 0 ∧ some newEarliest ≠ earliestSeen then
            ({ st1 with
                 progress := update_last_seen_id st1.progress ch.id newEarliest now },
             evs)
          else (st1, evs)

/-- A crawl state whose progress table stores cursor 100 for channel 5. -/
def stC1 : CrawlState :=
  { posts := [], authors := [], progress := [⟨5, 100, 0⟩], channels := [],
    inaccessible := [], finished := [], blueIds := [] }

/-- Channel 5, readable, not a thread. -/
def chC1 : Channel := ⟨5, "c".toList, false, none, true⟩

/-- A single message of id 50 in channel 5, within the cutoff, untracked. -/
def msgC1 : Message :=
  { id := 50, channelId := 5, authorId := 9, authorName := "x".toList,
    roleIds := [], createdAt := 10, content := "hi".toList,
    hasReference := false, resolvedParent := none }

/-- C1 counterexample: the claim says the new last_seen_id is greater than or
equal to the stored one; with cursor 100 for channel 5 and a page holding
message 50 (the crawler fetches with before=100, so the page lies below the
cursor), crawl_one rewrites the cursor to 50 < 100. -/
theorem C1_counterexample :
    get_last_seen_id stC1.progress stC1.posts 5 = some 100 ∧
    get_last_seen_id
        (crawl_one [] [] chC1 0 7 (FetchResult.ok [msgC1]) stC1).1.progress
        (crawl_one [] [] chC1 0 7 (FetchResult.ok [msgC1]) stC1).1.posts 5
      = some 50 ∧
    ¬ (100 ≤ 50) := by decide

/-- C1 (amended): the persisted cursor is monotonic non-INCREASING - crawl_one
anchors its page fetch with before=cursor, so every page message id lies
strictly below the stored cursor, and the cursor is rewritten to the lowest
id of the page; and a crawl that finds no new remote data (an empty page)
leaves both last_seen_id and the posts table unchanged. -/
theorem C1_cursor_nonincreasing (ignored tracked : List Nat) (ch : Channel)
    (cutoff : Int) (now : Nat) (st : CrawlState) (c : Nat)
    (h1 : ignored.contains ch.id = false)
    (h2 : st.inaccessible.contains ch.id = false)
    (h3 : st.finished.contains ch.id = false)
    (h4 : ch.canReadHistory = true)
    (hc : get_last_seen_id st.progress st.posts ch.id = some c) :
    (∀ msgs : List Message, msgs ≠ [] → (∀ m ∈ msgs, 0 < m.id ∧ m.id < c) →
      ∃ v, get_last_seen_id
              (crawl_one ignored tracked ch cutoff now (FetchResult.ok msgs) st).1.progress
              (crawl_one ignored tracked ch cutoff now (FetchResult.ok msgs) st).1.posts
              ch.id = some v ∧ v < c) ∧
    ((crawl_one ignored tracked ch cutoff now (FetchResult.ok []) st).1.progress
        = st.progress ∧
     (crawl_one ignored tracked ch cutoff now (FetchResult.ok []) st).1.posts
        = st.posts) := by
  constructor
  · intro msgs hne hb
    cases hrev : msgs.reverse with
    | nil =>
        rw [List.reverse_eq_nil_iff] at hrev
        exact absurd hrev hne
    | cons m0 t =>
        have hm0 : m0 ∈ msgs := by
          rw [← List.mem_reverse, hrev]; exact List.mem_cons_self _ _
        obtain ⟨hpos, hlt⟩ := hb m0 hm0
        have hne0 : ¬ (m0.id = 0) := by omega
        have hnc : ¬ (m0.id = c) := by omega
        have hempty : msgs.isEmpty = false := by
          cases msgs
          · exact absurd rfl hne
          · rfl
        refine ⟨m0.id, ?_, hlt⟩
        simp only [crawl_one, h1, h2, h3, h4, hempty, hrev, hc,
          Bool.false_eq_true, if_false, Bool.not_true, List.head?_cons,
          Option.map_some, Option.getD_some]
        rw [if_pos ⟨hne0, by simp [hnc]⟩]
        simp [get_last_seen_id, update_last_seen_id, hne0]
  · have h1m : ch.id ∉ ignored := by simpa using h1
    have h2m : ch.id ∉ st.inaccessible := by simpa using h2
    have h3m : ch.id ∉ st.finished := by simpa using h3
    constructor <;> simp [crawl_one, h1m, h2m, h3m, h4]

/-- Witness for C1_cursor_nonincreasing on channel 5 with stored cursor
100. -/
theorem C1_cursor_nonincreasing_witness :
    (List.contains [] chC1.id = false ∧
     stC1.inaccessible.contains chC1.id = false ∧
     stC1.finished.contains chC1.id = false ∧
     chC1.canReadHistory = true ∧
     get_last_seen_id stC1.progress stC1.posts chC1.id = some 100 ∧
     ((∀ msgs : List Message, msgs ≠ [] → (∀ m ∈ msgs, 0 < m.id ∧ m.id < 100) →
        ∃ v, get_last_seen_id
                (crawl_one [] [] chC1 0 7 (FetchResult.ok msgs) stC1).1.progress
                (crawl_one [] [] chC1 0 7 (FetchResult.ok msgs) stC1).1.posts
                chC1.id = some v ∧ v < 100) ∧
      ((crawl_one [] [] chC1 0 7 (FetchResult.ok []) stC1).1.progress
          = stC1.progress ∧
       (crawl_one [] [] chC1 0 7 (FetchResult.ok []) stC1).1.posts
          = stC1.posts))) :=
  ⟨by decide, by decide, by decide, by decide, by decide,
   C1_cursor_nonincreasing [] [] chC1 0 7 stC1 100 (by decide) (by decide)
     (by decide) (by decide) (by decide)⟩

/-- A crawl state whose progress table stores cursor 100 for channel 5, for
the C3 scenario. -/
def stC3 : CrawlState :=
  { posts := [], authors := [], progress := [⟨5, 100, 0⟩], channels := [],
    inaccessible := [], finished := [], blueIds := [] }

/-- Channel 5 for the C3 scenario. -/
def chC3 : Channel := ⟨5, "c".toList, false, none, true⟩

/-- The page of the C3 scenario: messages 101 through 150, listed newest
first as the history API returns them, all within the cutoff, none from
tracked authors. -/
def msgsC3 : List Message :=
  (List.range 50).map (fun i =>
    { id := 150 - i, channelId := 5, authorId := 900, authorName := "u".toList,
      roleIds := [], createdAt := 10, content := "m".toList,
      hasReference := false, resolvedParent := none })

/-- The crawl state after running crawl_one on the C3 scenario. -/
def resC3 : CrawlState :=
  (crawl_one [] [] chC3 0 7 (FetchResult.ok msgsC3) stC3).1

/-- C3 counterexample: the claim says the stored cursor afterwards equals
150; in fact crawl_one stores the lowest id of the page, 101. -/
theorem C3_counterexample :
    get_last_seen_id resC3.progress resC3.posts 5 = some 101 ∧
    ¬ get_last_seen_id resC3.progress resC3.posts 5 = some 150 := by decide

/-- C3 (amended): with stored cursor 100 and a page of messages 101-150, all
within the cutoff and none from tracked authors, crawl_one stores cursor 101
- the lowest id of the page, which the backfilling crawler keeps as its next
before= anchor - and inserts zero rows into posts. -/
theorem C3_cursor_to_page_minimum :
    get_last_seen_id resC3.progress resC3.posts 5 = some 101 ∧
    resC3.posts = [] := by decide

/-- The page loop never touches the inaccessible cache. -/
theorem crawl_page_inaccessible (ignored tracked : List Nat) (chanId : Nat)
    (cutoff : Int) (ms : List Message) :
    ∀ st : CrawlState,
      (crawl_page ignored tracked chanId cutoff ms st).inaccessible
        = st.inaccessible := by
  induction ms with
  | nil => intro st; rfl
  | cons m rest ih =>
      intro st
      unfold crawl_page
      split_ifs <;> first | rfl | exact ih _

/-- crawl_one never removes a channel from the inaccessible cache. -/
theorem crawl_one_keeps_inaccessible (ignored tracked : List Nat) (ch : Channel)
    (cutoff : Int) (now : Nat) (fetch : FetchResult) (st : CrawlState) (a : Nat)
    (h : a ∈ st.inaccessible) :
    a ∈ (crawl_one ignored tracked ch cutoff now fetch st).1.inaccessible := by
  cases fetch <;> simp only [crawl_one] <;> split_ifs <;>
    simp [crawl_page_inaccessible, h]

/-- crawl_one issues no history fetch for a channel already cached as
inaccessible. -/
theorem crawl_one_no_fetch_of_inaccessible (ignored tracked : List Nat)
    (ch : Channel) (cutoff : Int) (now : Nat) (fetch : FetchResult)
    (st : CrawlState) (h : ch.id ∈ st.inaccessible) :
    (crawl_one ignored tracked ch cutoff now fetch st).2 = [] := by
  by_cases hig : ch.id ∈ ignored
  · cases fetch <;> simp [crawl_one, hig]
  · cases fetch <;> simp [crawl_one, hig, h]

/-- When a channel passes the ignored / inaccessible / finished guards and
the history permission, crawl_one issues exactly one history fetch, anchored
before the stored cursor. -/
theorem crawl_one_fetch_event (ignored tracked : List Nat) (ch : Channel)
    (cutoff : Int) (now : Nat) (fetch : FetchResult) (st : CrawlState)
    (h1 : ch.id ∉ ignored) (h2 : ch.id ∉ st.inaccessible)
    (h3 : ch.id ∉ st.finished) (h4 : ch.canReadHistory = true) :
    (crawl_one ignored tracked ch cutoff now fetch st).2 =
      [CrawlEvent.fetchHistory ch.id
        (get_last_seen_id st.progress st.posts ch.id)] := by
  cases fetch <;> simp only [crawl_one] <;> split_ifs <;>
    simp_all

/-- All events of a crawl_one call concern the crawled channel itself. -/
theorem crawl_one_events_shape (ignored tracked : List Nat) (ch : Channel)
    (cutoff : Int) (now : Nat) (fetch : FetchResult) (st : CrawlState) :
    (crawl_one ignored tracked ch cutoff now fetch st).2 = [] ∨
    (crawl_one ignored tracked ch cutoff now fetch st).2 =
      [CrawlEvent.fetchHistory ch.id
        (get_last_seen_id st.progress st.posts ch.id)] := by
  cases fetch <;> simp only [crawl_one] <;> split_ifs <;> simp

/-- One scheduling step of the crawl loop (slow_crawl): either one crawl_one
call on some channel with some fetch outcome, or the periodic cache reset of
crawler.py lines 269-272. -/
inductive SweepOp where
  | crawl (ch : Channel) (cutoff : Int) (now : Nat) (fetch : FetchResult)
  | resetInaccessible
  deriving DecidableEq, Repr

/-- Embedding of the periodic cache reset of slow_crawl (crawler.py lines
269-272): `inaccessible_channels.clear()` - and nothing else; in particular
finished_channels is left as it is. -/
def resetCaches (st : CrawlState) : CrawlState := { st with inaccessible := [] }

/-- Run a list of sweep operations, accumulating the remote-call events. -/
def run_sweeps (ignored tracked : List Nat) :
    List SweepOp → CrawlState → CrawlState × List CrawlEvent
  | [], st => (st, [])
  | SweepOp.crawl ch cutoff now fetch :: rest, st =>
      let p := crawl_one ignored tracked ch cutoff now fetch st
      let q := run_sweeps ignored tracked rest p.1
      (q.1, p.2 ++ q.2)
  | SweepOp.resetInaccessible :: rest, st =>
      run_sweeps ignored tracked rest (resetCaches st)

/-- As long as no cache reset occurs, a channel in the inaccessible cache
stays there and is never the target of a history fetch. -/
theorem run_sweeps_skips_inaccessible (ignored tracked : List Nat) (a : Nat)
    (ops : List SweepOp) :
    ∀ st : CrawlState, a ∈ st.inaccessible →
      (∀ op ∈ ops, op ≠ SweepOp.resetInaccessible) →
      ((∀ c b, CrawlEvent.fetchHistory c b ∈ (run_sweeps ignored tracked ops st).2 →
          c ≠ a) ∧
       a ∈ (run_sweeps ignored tracked ops st).1.inaccessible) := by
  induction ops with
  | nil =>
      intro st h _
      exact ⟨by simp [run_sweeps], h⟩
  | cons op rest ih =>
      intro st h hops
      cases op with
      | resetInaccessible => exact absurd rfl (hops _ (List.mem_cons_self _ _))
      | crawl ch cutoff now fetch =>
          have hrest : ∀ op ∈ rest, op ≠ SweepOp.resetInaccessible :=
            fun op hop => hops op (List.mem_cons_of_mem _ hop)
          have hkeep := crawl_one_keeps_inaccessible ignored tracked ch cutoff
            now fetch st a h
          obtain ⟨ihev, ihmem⟩ := ih _ hkeep hrest
          refine ⟨?_, ihmem⟩
          intro c b hmem
          rcases List.mem_append.mp hmem with hm | hm
          · rcases crawl_one_events_shape ignored tracked ch cutoff now fetch st
              with hev | hev
            · rw [hev] at hm
              cases hm
            · rw [hev] at hm
              simp only [List.mem_singleton, CrawlEvent.fetchHistory.injEq] at hm
              intro hca
              have hch : ch.id ∈ st.inaccessible := by
                rw [hm.1.symm.trans hca]
                exact h
              have hnil := crawl_one_no_fetch_of_inaccessible ignored tracked ch
                cutoff now fetch st hch
              rw [hev] at hnil
              cases hnil
          · exact ihev c b hm

/-- C4: a Forbidden (or HTTP 403) history fetch puts the channel into the
inaccessible cache, and from any state in which a channel is cached as
inaccessible, every following sequence of crawls that contains no cache
reset issues no history fetch for that channel and keeps it cached. -/
theorem C4_forbidden_blocks_future_fetches (ignored tracked : List Nat)
    (ch : Channel) (cutoff : Int) (now : Nat) (st : CrawlState)
    (h1 : ignored.contains ch.id = false)
    (h2 : st.inaccessible.contains ch.id = false)
    (h3 : st.finished.contains ch.id = false)
    (h4 : ch.canReadHistory = true) :
    (ch.id ∈ (crawl_one ignored tracked ch cutoff now FetchResult.forbidden st).1.inaccessible ∧
     ch.id ∈ (crawl_one ignored tracked ch cutoff now (FetchResult.httpError 403) st).1.inaccessible) ∧
    (∀ (ops : List SweepOp) (st' : CrawlState), ch.id ∈ st'.inaccessible →
      (∀ op ∈ ops, op ≠ SweepOp.resetInaccessible) →
      ((∀ c b, CrawlEvent.fetchHistory c b ∈ (run_sweeps ignored tracked ops st').2 →
          c ≠ ch.id) ∧
       ch.id ∈ (run_sweeps ignored tracked ops st').1.inaccessible)) := by
  constructor
  · have h1m : ch.id ∉ ignored := by simpa using h1
    have h2m : ch.id ∉ st.inaccessible := by simpa using h2
    have h3m : ch.id ∉ st.finished := by simpa using h3
    constructor <;> simp [crawl_one, h1m, h2m, h3m, h4]
  · intro ops st' h hops
    exact run_sweeps_skips_inaccessible ignored tracked ch.id ops st' h hops

/-- Channel 6, readable, for the C4 witness. -/
def chC4 : Channel := ⟨6, "d".toList, false, none, true⟩

/-- The empty crawl state. -/
def stEmpty : CrawlState :=
  { posts := [], authors := [], progress := [], channels := [],
    inaccessible := [], finished := [], blueIds := [] }

/-- Witness for C4_forbidden_blocks_future_fetches on channel 6 from the
empty state. -/
theorem C4_forbidden_blocks_future_fetches_witness :
    (List.contains [] chC4.id = false ∧
     stEmpty.inaccessible.contains chC4.id = false ∧
     stEmpty.finished.contains chC4.id = false ∧
     chC4.canReadHistory = true ∧
     ((chC4.id ∈ (crawl_one [] [] chC4 0 0 FetchResult.forbidden stEmpty).1.inaccessible ∧
       chC4.id ∈ (crawl_one [] [] chC4 0 0 (FetchResult.httpError 403) stEmpty).1.inaccessible) ∧
      (∀ (ops : List SweepOp) (st' : CrawlState), chC4.id ∈ st'.inaccessible →
        (∀ op ∈ ops, op ≠ SweepOp.resetInaccessible) →
        ((∀ c b, CrawlEvent.fetchHistory c b ∈ (run_sweeps [] [] ops st').2 →
            c ≠ chC4.id) ∧
         chC4.id ∈ (run_sweeps [] [] ops st').1.inaccessible)))) :=
  ⟨by decide, by decide, by decide, by decide,
   C4_forbidden_blocks_future_fetches [] [] chC4 0 0 stEmpty (by decide)
     (by decide) (by decide) (by decide)⟩

/-- A state with channel 9 cached inaccessible and channel 7 marked
finished. -/
def stC8 : CrawlState :=
  { posts := [], authors := [], progress := [], channels := [],
    inaccessible := [9], finished := [7], blueIds := [] }

/-- Channel 7, which is in the finished cache of stC8. -/
def chC8 : Channel := ⟨7, "f".toList, false, none, true⟩

/-- C8 counterexample: the claim says the periodic reset returns finished
(exhausted) channels to Active so that they are crawled again; after the
reset of the code (which clears only the inaccessible cache), crawling the
finished channel 7 still issues no history fetch. -/
theorem C8_counterexample :
    (run_sweeps [] [] [SweepOp.resetInaccessible,
        SweepOp.crawl chC8 0 0 (FetchResult.ok [])] stC8).2 = [] := by decide

/-- C8 (amended): the periodic reset of the crawl loop clears only the
inaccessible cache and leaves finished_channels untouched; after it, a
previously inaccessible channel is fetched again on the next crawl, while a
channel marked finished is still skipped with no remote call. -/
theorem C8_reset_restores_only_inaccessible (ignored tracked : List Nat)
    (st : CrawlState) (ch : Channel) (cutoff : Int) (now : Nat)
    (fetch : FetchResult)
    (h1 : ignored.contains ch.id = false)
    (h4 : ch.canReadHistory = true) :
    (resetCaches st).inaccessible = [] ∧
    (resetCaches st).finished = st.finished ∧
    (ch.id ∈ st.finished →
      (crawl_one ignored tracked ch cutoff now fetch (resetCaches st)).2 = []) ∧
    (st.finished.contains ch.id = false →
      (crawl_one ignored tracked ch cutoff now fetch (resetCaches st)).2 =
        [CrawlEvent.fetchHistory ch.id
          (get_last_seen_id st.progress st.posts ch.id)]) := by
  have h1m : ch.id ∉ ignored := by simpa using h1
  refine ⟨rfl, rfl, ?_, ?_⟩
  · intro hf
    cases fetch <;> simp [crawl_one, resetCaches, h1m, hf]
  · intro hnf
    have h3m : ch.id ∉ st.finished := by simpa using hnf
    exact crawl_one_fetch_event ignored tracked ch cutoff now fetch
      (resetCaches st) h1m (by simp [resetCaches]) h3m h4

/-- Witness for C8_reset_restores_only_inaccessible on stC8 and channel 7. -/
theorem C8_reset_restores_only_inaccessible_witness :
    (List.contains [] chC8.id = false ∧
     chC8.canReadHistory = true ∧
     ((resetCaches stC8).inaccessible = [] ∧
      (resetCaches stC8).finished = stC8.finished ∧
      (chC8.id ∈ stC8.finished →
        (crawl_one [] [] chC8 0 0 (FetchResult.ok []) (resetCaches stC8)).2 = []) ∧
      (stC8.finished.contains chC8.id = false →
        (crawl_one [] [] chC8 0 0 (FetchResult.ok []) (resetCaches stC8)).2 =
          [CrawlEvent.fetchHistory chC8.id
            (get_last_seen_id stC8.progress stC8.posts chC8.id)]))) :=
  ⟨by decide, by decide,
   C8_reset_restores_only_inaccessible [] [] stC8 chC8 0 0 (FetchResult.ok [])
     (by decide) (by decide)⟩

/-- Outcome of one webhook.send attempt inside safe_webhook_send: success, an
HTTPException with status 429 carrying the server's retry_after hint, or any
other HTTPException. -/
inductive SendOutcome where
  | ok
  | rateLimited (retryAfter : Nat)
  | otherError
  deriving DecidableEq, Repr

/-- Observable actions of safe_webhook_send: a send attempt, or a sleep of a
number of seconds. -/
inductive SendEvent where
  | attempt
  | sleep (secs : Nat)
  deriving DecidableEq, Repr

/-- How safe_webhook_send returns to its caller: a successful send, a raised
exception, or a plain return with no send having succeeded (the loop ran out
of attempts on a rate limit). -/
inductive SendResult where
  | sent
  | raised
  | returnedUnsent
  deriving DecidableEq, Repr

/-- Embedding of the body of repost.py safe_webhook_send (lines 100-115).
The `for attempt in range(max_retries)` loop is represented by the list of
per-attempt outcomes (its length is max_retries, 3 in the source), with
`attempt` carrying the loop index used by the exponential backoff: success
returns; a 429 sleeps for the server's retry_after and continues; another
error raises when this was the last attempt and otherwise sleeps 2^attempt
and continues; falling off the end of the loop returns without a send. -/
def send_attempts (attempt : Nat) : List SendOutcome → SendResult × List SendEvent
  | [] => (SendResult.returnedUnsent, [])
  | o :: rest =>
    match o with
    | SendOutcome.ok => (SendResult.sent, [SendEvent.attempt])
    | SendOutcome.rateLimited ra =>
        let r := send_attempts (attempt + 1) rest
        (r.1, SendEvent.attempt :: SendEvent.sleep ra :: r.2)
    | SendOutcome.otherError =>
        if rest.isEmpty then (SendResult.raised, [SendEvent.attempt])
        else
          let r := send_attempts (attempt + 1) rest
          (r.1, SendEvent.attempt :: SendEvent.sleep (2 ^ attempt) :: r.2)

/-- Embedding of repost.py safe_webhook_send with the default max_retries;
`outcomes` lists the outcome each attempt would have. -/
def safe_webhook_send (outcomes : List SendOutcome) : SendResult × List SendEvent :=
  send_attempts 0 outcomes

/-- C7 counterexample: the claim says that when all retry attempts are
exhausted without a successful send the failure is surfaced as a raised
exception; when every attempt is rate-limited, the loop sleeps, runs out of
attempts and falls through, returning to the caller with no exception and no
successful send. -/
theorem C7_counterexample :
    (safe_webhook_send [SendOutcome.rateLimited 5, SendOutcome.rateLimited 5,
        SendOutcome.rateLimited 5]).1 = SendResult.returnedUnsent ∧
    SendResult.returnedUnsent ≠ SendResult.raised ∧
    SendResult.returnedUnsent ≠ SendResult.sent := by decide

/-- C7 (amended): after a rate-limit response the sender sleeps for the
server-specified retry interval and retries, and a successful retry reaches
the caller with no error; after exhausting the attempts the failure is
surfaced as a raised exception only when the final attempt failed with a
non-rate-limit error - a run whose every attempt is rate-limited instead
returns silently with nothing sent. -/
theorem C7_retry_semantics :
    (∀ ra : Nat, ∀ o3 : SendOutcome,
      safe_webhook_send [SendOutcome.rateLimited ra, SendOutcome.ok, o3] =
        (SendResult.sent,
         [SendEvent.attempt, SendEvent.sleep ra, SendEvent.attempt])) ∧
    (safe_webhook_send
        [SendOutcome.otherError, SendOutcome.otherError, SendOutcome.otherError]).1
      = SendResult.raised ∧
    (∀ ra1 ra2 ra3 : Nat,
      (safe_webhook_send [SendOutcome.rateLimited ra1, SendOutcome.rateLimited ra2,
          SendOutcome.rateLimited ra3]).1 = SendResult.returnedUnsent) := by
  refine ⟨fun ra o3 => rfl, by decide, fun ra1 ra2 ra3 => rfl⟩

/-- Where the processing of one backlog row of replay_all (main.py lines
81-153) ends: full success; the source channel no longer exists
(discord.NotFound); an exception raised before the replayed-mark of line 132
(for example in ensure_mirror or get_webhook); or an exception raised by the
webhook send of line 135. -/
inductive RowOutcome where
  | ok
  | channelNotFound
  | earlyError
  | sendError
  deriving DecidableEq, Repr

/-- Observable actions of the replay loop: the `UPDATE posts SET replayed = 1
WHERE id = ?` statement, a commit, and the hand-off of a message to
safe_webhook_send. -/
inductive ReplayEvent where
  | mark (id : Nat)
  | commit
  | send (id : Nat)
  deriving DecidableEq, Repr

/-- The `UPDATE posts SET replayed = 1 WHERE id = ?` statement. -/
def markReplayed (rows : List PostRow) (i : Nat) : List PostRow :=
  rows.map (fun r => if r.id == i then { r with replayed := 1 } else r)

/-- Event trace of one iteration of the replay loop, by outcome, following
main.py: a missing channel marks the row and continues without a commit of
its own (line 90); reaching line 132 marks, commits and then sends (lines
132-135); a send exception falls into the handler of line 149, which marks
and commits again; an earlier exception only runs that handler. -/
def rowTrace (outcome : Nat → RowOutcome) (r : PostRow) : List ReplayEvent :=
  match outcome r.id with
  | RowOutcome.channelNotFound => [ReplayEvent.mark r.id]
  | RowOutcome.earlyError => [ReplayEvent.mark r.id, ReplayEvent.commit]
  | RowOutcome.ok =>
      [ReplayEvent.mark r.id, ReplayEvent.commit, ReplayEvent.send r.id]
  | RowOutcome.sendError =>
      [ReplayEvent.mark r.id, ReplayEvent.commit, ReplayEvent.send r.id,
       ReplayEvent.mark r.id, ReplayEvent.commit]

/-- Effect of one iteration of the replay loop on the posts table: the row is
marked replayed on every path (twice when the send raised, once via line 132
and once via the handler of line 152). -/
def rowStep (outcome : Nat → RowOutcome) (rows : List PostRow) (r : PostRow) :
    List PostRow :=
  match outcome r.id with
  | RowOutcome.sendError => markReplayed (markReplayed rows r.id) r.id
  | _ => markReplayed rows r.id

/-- The ORDER BY ts ASC comparison of the backlog query. -/
def tsLe (a b : PostRow) : Bool := a.ts ≤ b.ts

/-- The backlog selection of replay_all (main.py lines 75-80):
`SELECT ... FROM posts WHERE replayed = 0 ORDER BY ts ASC`. -/
def backlogOf (rows : List PostRow) : List PostRow :=
  (rows.filter (fun r => r.replayed == 0)).mergeSort tsLe

/-- Embedding of main.py replay_all (lines 62-155): every backlog row is
processed in timestamp order; the row traces do not depend on the evolving
posts table (each iteration touches only its own row), so the final table is
the fold of the per-row effects and the final trace the concatenation of the
per-row traces. -/
def replay_all (outcome : Nat → RowOutcome) (rows : List PostRow) :
    List PostRow × List ReplayEvent :=
  let backlog := backlogOf rows
  (backlog.foldl (rowStep outcome) rows, backlog.flatMap (rowTrace outcome))

/-- A row of the marked table is either marked or an unrelated survivor. -/
theorem mem_markReplayed (rows : List PostRow) (i : Nat) (r : PostRow)
    (h : r ∈ markReplayed rows i) :
    r.replayed = 1 ∨ (r ∈ rows ∧ r.id ≠ i) := by
  obtain ⟨r0, hr0, heq⟩ := List.mem_map.mp h
  by_cases hid : r0.id = i
  · left
    rw [← heq]
    simp [hid]
  · right
    have hbeq : (r0.id == i) = false := by simpa using hid
    rw [← heq]
    simp only [hbeq, Bool.false_eq_true, if_false]
    exact ⟨hr0, hid⟩

/-- A row surviving one replay iteration is either marked or untouched with a
different id. -/
theorem mem_rowStep (outcome : Nat → RowOutcome) (rows : List PostRow)
    (b : PostRow) (r : PostRow) (h : r ∈ rowStep outcome rows b) :
    r.replayed = 1 ∨ (r ∈ rows ∧ r.id ≠ b.id) := by
  unfold rowStep at h
  cases houc : outcome b.id <;> rw [houc] at h
  case sendError =>
    rcases mem_markReplayed _ _ _ h with h1 | ⟨hin, hne⟩
    · exact Or.inl h1
    · rcases mem_markReplayed _ _ _ hin with h1 | ⟨hin2, _⟩
      · exact Or.inl h1
      · exact Or.inr ⟨hin2, hne⟩
  all_goals exact mem_markReplayed _ _ _ h

/-- After folding the replay step over a pending list covering every unmarked
row, every row of the table is marked. -/
theorem foldl_rowStep_all_marked (outcome : Nat → RowOutcome) (bs : List PostRow) :
    ∀ st : List PostRow,
      (∀ r ∈ st, r.replayed = 1 ∨ r.id ∈ bs.map (fun x => x.id)) →
      ∀ r ∈ bs.foldl (rowStep outcome) st, r.replayed = 1 := by
  induction bs with
  | nil =>
      intro st h r hr
      rcases h r hr with h1 | h2
      · exact h1
      · simp at h2
  | cons b bs ih =>
      intro st h r hr
      refine ih (rowStep outcome st b) ?_ r hr
      intro r' hr'
      rcases mem_rowStep outcome st b r' hr' with h1 | ⟨hmem, hne⟩
      · exact Or.inl h1
      · rcases h r' hmem with h1 | h2
        · exact Or.inl h1
        · simp only [List.map_cons, List.mem_cons] at h2
          rcases h2 with h2 | h2
          · exact absurd h2 hne
          · exact Or.inr (by simpa using h2)

/-- Every row trace opens with the mark of its own row. -/
theorem mark_mem_rowTrace (outcome : Nat → RowOutcome) (b : PostRow) :
    ReplayEvent.mark b.id ∈ rowTrace outcome b := by
  cases h : outcome b.id <;> simp [rowTrace, h]

/-- Every unreplayed row of the table belongs to the backlog selection. -/
theorem mem_backlog (rows : List PostRow) (r : PostRow) (h0 : r.replayed = 0)
    (hr : r ∈ rows) : r ∈ backlogOf rows := by
  unfold backlogOf
  rw [(List.mergeSort_perm (rows.filter (fun x => x.replayed == 0)) tsLe).mem_iff]
  exact List.mem_filter.mpr ⟨hr, by simp [h0]⟩

/-- C6: for every backlog row with replayed=0 processed by replay_all, the
row ends with replayed=1 regardless of the per-row outcome (send succeeded,
failed, or raised, channel missing, or an earlier exception), and every such
row is reached - a per-row exception never aborts the loop. -/
theorem C6_replay_marks_every_row (outcome : Nat → RowOutcome)
    (rows : List PostRow)
    (h01 : ∀ r ∈ rows, r.replayed = 0 ∨ r.replayed = 1) :
    (∀ r ∈ (replay_all outcome rows).1, r.replayed = 1) ∧
    (∀ r ∈ rows, r.replayed = 0 →
      ReplayEvent.mark r.id ∈ (replay_all outcome rows).2) := by
  constructor
  · intro r hr
    refine foldl_rowStep_all_marked outcome (backlogOf rows) rows ?_ r hr
    intro r' hr'
    rcases h01 r' hr' with h0 | h1
    · exact Or.inr (List.mem_map.mpr ⟨r', mem_backlog rows r' h0 hr', rfl⟩)
    · exact Or.inl h1
  · intro r hr h0
    exact List.mem_flatMap.mpr ⟨r, mem_backlog rows r h0 hr,
      mark_mem_rowTrace outcome r⟩

/-- A concrete one-row backlog for the C6 witness. -/
def rowsC6 : List PostRow := [⟨21, 5, 9, 3, "hi".toList, 0⟩]

/-- Witness for C6_replay_marks_every_row on a one-row backlog whose send
raises. -/
theorem C6_replay_marks_every_row_witness :
    ((∀ r ∈ rowsC6, r.replayed = 0 ∨ r.replayed = 1) ∧
     ((∀ r ∈ (replay_all (fun _ => RowOutcome.sendError) rowsC6).1,
         r.replayed = 1) ∧
      (∀ r ∈ rowsC6, r.replayed = 0 →
        ReplayEvent.mark r.id ∈
          (replay_all (fun _ => RowOutcome.sendError) rowsC6).2))) :=
  ⟨by decide, C6_replay_marks_every_row (fun _ => RowOutcome.sendError) rowsC6
    (by decide)⟩

/-- Scan of a replay trace checking that every send is preceded by an
earlier mark of the same row id and an earlier commit: `marked` accumulates
the ids marked so far and `c` records whether a commit has occurred. -/
def checkMarkCommitBeforeSend :
    List ReplayEvent → List Nat → Bool → Bool
  | [], _, _ => true
  | ReplayEvent.mark i :: rest, marked, c =>
      checkMarkCommitBeforeSend rest (i :: marked) c
  | ReplayEvent.commit :: rest, marked, _ =>
      checkMarkCommitBeforeSend rest marked true
  | ReplayEvent.send i :: rest, marked, c =>
      marked.contains i && c && checkMarkCommitBeforeSend rest marked c

/-- Number of hand-offs of row i to the publisher in a trace. -/
def countSend (evs : List ReplayEvent) (i : Nat) : Nat :=
  evs.countP (fun e => e = ReplayEvent.send i)

/-- The concatenated row traces pass the mark-and-commit-before-send scan
from any starting accumulator. -/
theorem check_rowTraces (outcome : Nat → RowOutcome) (bs : List PostRow) :
    ∀ (marked : List Nat) (c : Bool),
      checkMarkCommitBeforeSend (bs.flatMap (rowTrace outcome)) marked c
        = true := by
  induction bs with
  | nil => intro marked c; rfl
  | cons b bs ih =>
      intro marked c
      cases h : outcome b.id <;>
        simp [rowTrace, h, checkMarkCommitBeforeSend, ih]

/-- A row trace contains no send of a foreign id. -/
theorem countSend_rowTrace_ne (outcome : Nat → RowOutcome) (b : PostRow)
    (i : Nat) (h : b.id ≠ i) : countSend (rowTrace outcome b) i = 0 := by
  cases hb : outcome b.id <;> simp [rowTrace, hb, countSend, h]

/-- A row trace contains at most one send. -/
theorem countSend_rowTrace_le_one (outcome : Nat → RowOutcome) (b : PostRow)
    (i : Nat) : countSend (rowTrace outcome b) i ≤ 1 := by
  by_cases h : b.id = i
  · subst h
    cases hb : outcome b.id <;> simp [rowTrace, hb, countSend]
  · have hz := countSend_rowTrace_ne outcome b i h
    omega

/-- A trace of rows that never carry id i contains no send of i. -/
theorem countSend_flatMap_zero (outcome : Nat → RowOutcome) (bs : List PostRow)
    (i : Nat) (h : i ∉ bs.map (fun r => r.id)) :
    countSend (bs.flatMap (rowTrace outcome)) i = 0 := by
  induction bs with
  | nil => rfl
  | cons b bs ih =>
      simp only [List.map_cons, List.mem_cons] at h
      have h1 : b.id ≠ i := fun hh => h (Or.inl hh.symm)
      have h2 : i ∉ bs.map (fun r => r.id) := fun hh => h (Or.inr hh)
      unfold countSend
      rw [List.flatMap_cons, List.countP_append]
      have hz1 := countSend_rowTrace_ne outcome b i h1
      have hz2 := ih h2
      unfold countSend at hz1 hz2
      omega

/-- With pairwise distinct row ids, the whole replay trace sends each id at
most once. -/
theorem countSend_flatMap_le_one (outcome : Nat → RowOutcome)
    (bs : List PostRow) (i : Nat) (hnd : (bs.map (fun r => r.id)).Nodup) :
    countSend (bs.flatMap (rowTrace outcome)) i ≤ 1 := by
  induction bs with
  | nil => simp [countSend]
  | cons b bs ih =>
      rw [List.map_cons, List.nodup_cons] at hnd
      obtain ⟨hbnotin, hnd'⟩ := hnd
      unfold countSend
      rw [List.flatMap_cons, List.countP_append]
      by_cases h : b.id = i
      · have hz : countSend (bs.flatMap (rowTrace outcome)) i = 0 :=
          countSend_flatMap_zero outcome bs i (h ▸ hbnotin)
        have hle := countSend_rowTrace_le_one outcome b i
        unfold countSend at hz hle
        omega
      · have hz := countSend_rowTrace_ne outcome b i h
        have hle := ih hnd'
        unfold countSend at hz hle
        omega

/-- The backlog selection preserves distinctness of row ids. -/
theorem backlog_ids_nodup (rows : List PostRow)
    (hnd : (rows.map (fun r => r.id)).Nodup) :
    ((backlogOf rows).map (fun r => r.id)).Nodup := by
  unfold backlogOf
  rw [((List.mergeSort_perm (rows.filter (fun r => r.replayed == 0)) tsLe).map
    (fun r => r.id)).nodup_iff]
  exact List.Nodup.sublist
    ((List.filter_sublist rows).map (fun r => r.id)) hnd

/-- A row already marked replayed is absent from the backlog id set. -/
theorem id_not_in_backlog (rows : List PostRow) (r : PostRow)
    (hnd : (rows.map (fun x => x.id)).Nodup) (hr : r ∈ rows)
    (h1 : r.replayed = 1) :
    r.id ∉ (backlogOf rows).map (fun x => x.id) := by
  intro hmem
  unfold backlogOf at hmem
  rw [((List.mergeSort_perm (rows.filter (fun x => x.replayed == 0)) tsLe).map
    (fun x => x.id)).mem_iff] at hmem
  obtain ⟨r', hr', hid⟩ := List.mem_map.mp hmem
  obtain ⟨hr'rows, hr'0⟩ := List.mem_filter.mp hr'
  have heq : r' = r := List.inj_on_of_nodup_map hnd hr'rows hr hid
  rw [heq] at hr'0
  simp [h1] at hr'0

/-- C10: replay_all marks a row replayed and commits strictly before handing
its message to the publisher (the scan accepts the whole trace); with
distinct row ids no row is handed to the publisher more than once in a run;
and a row whose stored flag is already replayed=1 - as it is after a crash
that hit between the mark-commit and the send of a previous run - is never
handed to the publisher again. -/
theorem C10_mark_and_commit_before_send (outcome : Nat → RowOutcome)
    (rows : List PostRow) (hnd : (rows.map (fun r => r.id)).Nodup) :
    checkMarkCommitBeforeSend (replay_all outcome rows).2 [] false = true ∧
    (∀ i, countSend (replay_all outcome rows).2 i ≤ 1) ∧
    (∀ r ∈ rows, r.replayed = 1 →
      ReplayEvent.send r.id ∉ (replay_all outcome rows).2) := by
  refine ⟨check_rowTraces outcome (backlogOf rows) [] false, ?_, ?_⟩
  · intro i
    exact countSend_flatMap_le_one outcome (backlogOf rows) i
      (backlog_ids_nodup rows hnd)
  · intro r hr h1 hmem
    have hz := countSend_flatMap_zero outcome (backlogOf rows) r.id
      (id_not_in_backlog rows r hnd hr h1)
    have hp := List.countP_eq_zero.mp hz _ hmem
    simp at hp

/-- Two rows with distinct ids, the second already replayed, for the C10
witness. -/
def rowsC10 : List PostRow :=
  [⟨31, 5, 9, 3, "a".toList, 0⟩, ⟨32, 5, 9, 4, "b".toList, 1⟩]

/-- Witness for C10_mark_and_commit_before_send on two concrete rows. -/
theorem C10_mark_and_commit_before_send_witness :
    ((rowsC10.map (fun r => r.id)).Nodup ∧
     (checkMarkCommitBeforeSend
        (replay_all (fun _ => RowOutcome.ok) rowsC10).2 [] false = true ∧
      (∀ i, countSend (replay_all (fun _ => RowOutcome.ok) rowsC10).2 i ≤ 1) ∧
      (∀ r ∈ rowsC10, r.replayed = 1 →
        ReplayEvent.send r.id ∉
          (replay_all (fun _ => RowOutcome.ok) rowsC10).2))) :=
  ⟨by decide, C10_mark_and_commit_before_send (fun _ => RowOutcome.ok) rowsC10
    (by decide)⟩

/-- A source channel or thread as ensure_mirror sees it: its guild and id
(the memoization key), its name, whether it is a thread, the name of the
parent channel (the channel itself when not a thread), the category name of
the parent (None when uncategorized), and the thread auto-archive
duration. -/
structure SrcChannel where
  guildId : Nat
  id : Nat
  name : List Char
  isThread : Bool
  parentName : List Char
  category : Option (List Char)
  autoArchive : Nat
  deriving DecidableEq, Repr

/-- The memoization key of the mirror cache:
(src_channel.guild.id, src_channel.id). -/
def mirrorKey (src : SrcChannel) : Nat × Nat := (src.guildId, src.id)

/-- The category name used on the destination side (repost.py line 36). -/
def mirrorCatName (src : SrcChannel) : List Char :=
  src.category.getD ("No-Category".toList)

/-- The destination guild and the module-level mirror cache of repost.py:
existing categories (id, name), text channels (id, category id, name),
threads (id, parent channel id, name), a fresh-id supply, the number of
destination channels and threads created so far, and the mirror_cache
mapping. -/
structure DestState where
  categories : List (Nat × List Char)
  channels : List (Nat × Nat × List Char)
  threads : List (Nat × Nat × List Char)
  nextId : Nat
  createdDest : Nat
  mirrorCache : List ((Nat × Nat) × Nat)
  deriving DecidableEq, Repr

/-- The discord.utils.get lookup of a destination category by name. -/
def findCategory (σ : DestState) (name : List Char) : Option Nat :=
  (σ.categories.find? (fun c => c.2 = name)).map (fun c => c.1)

/-- The discord.utils.get lookup of a destination text channel by name
within a category. -/
def findChannel (σ : DestState) (catId : Nat) (name : List Char) : Option Nat :=
  (σ.channels.find? (fun c => c.2.1 = catId ∧ c.2.2 = name)).map (fun c => c.1)

/-- The discord.utils.get lookup of a destination thread by name under a
parent channel. -/
def findThread (σ : DestState) (parentId : Nat) (name : List Char) : Option Nat :=
  (σ.threads.find? (fun c => c.2.1 = parentId ∧ c.2.2 = name)).map (fun c => c.1)

/-- A mirror_cache lookup by key. -/
def cacheLookup (σ : DestState) (key : Nat × Nat) : Option Nat :=
  (σ.mirrorCache.find? (fun e => e.1 = key)).map (fun e => e.2)

/-- The `mirror_cache[key] = value` assignment. -/
def cachePut (σ : DestState) (key : Nat × Nat) (v : Nat) : DestState :=
  { σ with mirrorCache :=
      (key, v) :: σ.mirrorCache.filter (fun e => e.1 ≠ key) }

/-- Program counter of one ensure_mirror invocation, cut at its suspension
points: each `await create_...` (with its following cooldown sleep and, for
channels, the make_read_only call) is one suspension, whose remote effect
becomes visible when the task resumes. -/
inductive MirrorPC where
  | start
  | creatingCategory
  | afterCategory (catId : Nat)
  | creatingChannel (catId : Nat)
  | afterChannel (chanId : Nat)
  | creatingThread (parentId : Nat)
  | afterThread (threadId : Nat)
  | done (destId : Nat)
  deriving DecidableEq, Repr

/-- Thread phase of ensure_mirror (repost.py lines 64-79): look the thread up
by name under the destination parent; on a hit cache and finish, on a miss
issue the thread creation and suspend. -/
def threadPhase (src : SrcChannel) (chanId : Nat) (σ : DestState) :
    MirrorPC × DestState :=
  match findThread σ chanId src.name with
  | some tid => (MirrorPC.done tid, cachePut σ (mirrorKey src) tid)
  | none => (MirrorPC.creatingThread chanId, σ)

/-- Channel phase of ensure_mirror (repost.py lines 48-79): look the parent
channel up by name inside the category; on a hit either cache and finish
(plain channel) or proceed to the thread phase; on a miss issue the channel
creation and suspend. -/
def channelPhase (src : SrcChannel) (catId : Nat) (σ : DestState) :
    MirrorPC × DestState :=
  match findChannel σ catId src.parentName with
  | some chid =>
      if src.isThread then threadPhase src chid σ
      else (MirrorPC.done chid, cachePut σ (mirrorKey src) chid)
  | none => (MirrorPC.creatingChannel catId, σ)

/-- One atomic segment of ensure_mirror (repost.py lines 29-79) between
suspension points, acting on the shared destination state.  From `start`
the cache is consulted, then category, channel and (for threads) thread are
resolved or created; each `creating...` state applies the completed remote
creation when the task is resumed, and the cache is written only in the
final segment, as in the source. -/
def ensure_mirror_step (src : SrcChannel) (pc : MirrorPC) (σ : DestState) :
    MirrorPC × DestState :=
  match pc with
  | MirrorPC.start =>
      match cacheLookup σ (mirrorKey src) with
      | some v => (MirrorPC.done v, σ)
      | none =>
          match findCategory σ (mirrorCatName src) with
          | some cid => channelPhase src cid σ
          | none => (MirrorPC.creatingCategory, σ)
  | MirrorPC.creatingCategory =>
      (MirrorPC.afterCategory σ.nextId,
       { σ with categories := (σ.nextId, mirrorCatName src) :: σ.categories,
                nextId := σ.nextId + 1 })
  | MirrorPC.afterCategory cid => channelPhase src cid σ
  | MirrorPC.creatingChannel catId =>
      (MirrorPC.afterChannel σ.nextId,
       { σ with channels := (σ.nextId, catId, src.parentName) :: σ.channels,
                nextId := σ.nextId + 1,
                createdDest := σ.createdDest + 1 })
  | MirrorPC.afterChannel chid =>
      if src.isThread then threadPhase src chid σ
      else (MirrorPC.done chid, cachePut σ (mirrorKey src) chid)
  | MirrorPC.creatingThread p =>
      (MirrorPC.afterThread σ.nextId,
       { σ with threads := (σ.nextId, p, src.name) :: σ.threads,
                nextId := σ.nextId + 1,
                createdDest := σ.createdDest + 1 })
  | MirrorPC.afterThread tid =>
      (MirrorPC.done tid, cachePut σ (mirrorKey src) tid)
  | MirrorPC.done v => (MirrorPC.done v, σ)

/-- Cooperative scheduler over a set of ensure_mirror invocations: the
schedule names, step by step, the task to run until its next suspension
point; indices out of range and finished tasks are skipped. -/
def runMirrorSched : List Nat → List (SrcChannel × MirrorPC) → DestState →
    List (SrcChannel × MirrorPC) × DestState
  | [], ts, σ => (ts, σ)
  | i :: rest, ts, σ =>
    match ts[i]? with
    | none => runMirrorSched rest ts σ
    | some (src, pc) =>
        let p := ensure_mirror_step src pc σ
        runMirrorSched rest (ts.set i (src, p.1)) p.2

/-- A plain (non-thread) source channel for the C5 scenario. -/
def srcC5 : SrcChannel :=
  { guildId := 1, id := 42, name := "gen".toList, isThread := false,
    parentName := "gen".toList, category := some ("cat".toList),
    autoArchive := 60 }

/-- A destination guild that already has the category but not the channel,
with an empty mirror cache. -/
def destC5 : DestState :=
  { categories := [(0, "cat".toList)], channels := [], threads := [],
    nextId := 10, createdDest := 0, mirrorCache := [] }

/-- C5 counterexample: the claim says at most one destination channel or
thread is created per source channel even under concurrent invocation; two
ensure_mirror invocations for the same key, interleaved at the
create-channel suspension point (schedule task 0, task 1, 0, 1, 0, 1), both
miss the cache and the name lookup and create two destination channels. -/
theorem C5_counterexample :
    (runMirrorSched [0, 1, 0, 1, 0, 1]
        [(srcC5, MirrorPC.start), (srcC5, MirrorPC.start)] destC5).2.createdDest
        = 2 ∧
    ¬ ((runMirrorSched [0, 1, 0, 1, 0, 1]
        [(srcC5, MirrorPC.start), (srcC5, MirrorPC.start)] destC5).2.createdDest
        ≤ 1) := by decide

/-- C5 (amended): ensure_mirror creates at most one destination per source
channel when its invocations are serialized - a first invocation that runs
to completion creates exactly one destination channel and caches it, and a
later invocation returns the cached destination in its first segment with no
further creation; the code has no single-flight guard, so invocations
interleaved at suspension points can create duplicates (see the
counterexample). -/
theorem C5_serialized_single_creation (src : SrcChannel) (σ0 : DestState)
    (cid : Nat)
    (hth : src.isThread = false)
    (hcache : cacheLookup σ0 (mirrorKey src) = none)
    (hcat : findCategory σ0 (mirrorCatName src) = some cid)
    (hchan : findChannel σ0 cid src.parentName = none) :
    (runMirrorSched [0, 0, 0] [(src, MirrorPC.start)] σ0).1
        = [(src, MirrorPC.done σ0.nextId)] ∧
    (runMirrorSched [0, 0, 0] [(src, MirrorPC.start)] σ0).2.createdDest
        = σ0.createdDest + 1 ∧
    ensure_mirror_step src MirrorPC.start
        (runMirrorSched [0, 0, 0] [(src, MirrorPC.start)] σ0).2
      = (MirrorPC.done σ0.nextId,
         (runMirrorSched [0, 0, 0] [(src, MirrorPC.start)] σ0).2) := by
  have s1 : ensure_mirror_step src MirrorPC.start σ0
      = (MirrorPC.creatingChannel cid, σ0) := by
    simp [ensure_mirror_step, channelPhase, hcache, hcat, hchan]
  have s2 : ensure_mirror_step src (MirrorPC.creatingChannel cid) σ0
      = (MirrorPC.afterChannel σ0.nextId,
         { σ0 with channels := (σ0.nextId, cid, src.parentName) :: σ0.channels,
                   nextId := σ0.nextId + 1,
                   createdDest := σ0.createdDest + 1 }) := by
    simp [ensure_mirror_step]
  have s3 : ensure_mirror_step src (MirrorPC.afterChannel σ0.nextId)
        { σ0 with channels := (σ0.nextId, cid, src.parentName) :: σ0.channels,
                  nextId := σ0.nextId + 1,
                  createdDest := σ0.createdDest + 1 }
      = (MirrorPC.done σ0.nextId,
         cachePut
           { σ0 with channels := (σ0.nextId, cid, src.parentName) :: σ0.channels,
                     nextId := σ0.nextId + 1,
                     createdDest := σ0.createdDest + 1 }
           (mirrorKey src) σ0.nextId) := by
    simp [ensure_mirror_step, hth]
  have hrun : runMirrorSched [0, 0, 0] [(src, MirrorPC.start)] σ0
      = ([(src, MirrorPC.done σ0.nextId)],
         cachePut
           { σ0 with channels := (σ0.nextId, cid, src.parentName) :: σ0.channels,
                     nextId := σ0.nextId + 1,
                     createdDest := σ0.createdDest + 1 }
           (mirrorKey src) σ0.nextId) := by
    simp [runMirrorSched, s1, s2, s3]
  refine ⟨?_, ?_, ?_⟩
  · rw [hrun]
  · rw [hrun]
    simp [cachePut]
  · rw [hrun]
    simp [ensure_mirror_step, cacheLookup, cachePut]

/-- Witness for C5_serialized_single_creation on the concrete destC5
state. -/
theorem C5_serialized_single_creation_witness :
    (srcC5.isThread = false ∧
     cacheLookup destC5 (mirrorKey srcC5) = none ∧
     findCategory destC5 (mirrorCatName srcC5) = some 0 ∧
     findChannel destC5 0 srcC5.parentName = none ∧
     ((runMirrorSched [0, 0, 0] [(srcC5, MirrorPC.start)] destC5).1
         = [(srcC5, MirrorPC.done destC5.nextId)] ∧
      (runMirrorSched [0, 0, 0] [(srcC5, MirrorPC.start)] destC5).2.createdDest
         = destC5.createdDest + 1 ∧
      ensure_mirror_step srcC5 MirrorPC.start
          (runMirrorSched [0, 0, 0] [(srcC5, MirrorPC.start)] destC5).2
        = (MirrorPC.done destC5.nextId,
           (runMirrorSched [0, 0, 0] [(srcC5, MirrorPC.start)] destC5).2))) :=
  ⟨by decide, by decide, by decide, by decide,
   C5_serialized_single_creation srcC5 destC5 0 (by decide) (by decide)
     (by decide) (by decide)⟩

end BlueTracker
